import Mathlib

/-!
Verification of the scroll-driven 3D viewer's camera animation core.

The embedding covers:
* `POSES` (src/src/viewer/scrollTimeline.js, lines 11-26): the START and END
  camera poses, with real-number fields modelled as rationals (`ℚ`).
* `applyPose` (scrollTimeline.js, lines 50-73): pushing a pose onto the
  camera rig, camera, target proxy and the `applyTarget` callback.
* `applyTarget` (src/unnamed/part_000, lines 36-43): the dual-mode target
  application (orbit controls vs. direct look-at).
* `setupScrollTimeline` (scrollTimeline.js, lines 94-153): the GSAP
  timeline configuration; the tween evaluation itself lives in the external
  animation library and is modelled from the spec as exact linear
  interpolation (ease 'none').

Mutable Three.js objects (camera rig, camera, orbit controls, target proxy)
are modelled as one explicit state record; method calls with no modelled
return value (`updateProjectionMatrix`, `controls.update`, the `applyTarget`
callback itself) are counted so that "was invoked" is observable.
-/

namespace ScrollViewer

/-- A 3D vector with rational coordinates, modelling the `{x, y, z}` objects
(`THREE.Vector3`, Euler angles, the target proxy) the viewer mutates. -/
structure Vec3 where
  x : ℚ
  y : ℚ
  z : ℚ
  deriving DecidableEq

/-- A fully specified camera pose as in the spec's Pose data model and the
`POSES.START` / `POSES.END` constants of scrollTimeline.js. -/
structure Pose where
  rigPos : Vec3
  rigRot : Vec3
  camLocalPos : Vec3
  target : Vec3
  fov : ℚ
  deriving DecidableEq

/-- A pose object as `applyPose` actually receives it: in the JavaScript,
`pose.camLocalPos` may be absent (the code guards `if (pose.camLocalPos)`)
and `pose.fov` may be `undefined` (the code guards
`if (pose.fov !== undefined)`). -/
structure JsPose where
  rigPos : Vec3
  rigRot : Vec3
  camLocalPos : Option Vec3
  target : Vec3
  fov : Option ℚ
  deriving DecidableEq

/-- View a fully specified `Pose` as the object passed to `applyPose`
(every optional field present). -/
def Pose.toJs (p : Pose) : JsPose :=
  { rigPos := p.rigPos
    rigRot := p.rigRot
    camLocalPos := some p.camLocalPos
    target := p.target
    fov := some p.fov }

/-- `POSES.START` of scrollTimeline.js, lines 12-18. -/
def POSES_START : Pose :=
  { rigPos := ⟨0, 0, 0⟩
    rigRot := ⟨0, 0.0767, 0⟩
    camLocalPos := ⟨5.980239, 1.034926, 5.20704⟩
    target := ⟨-0.196162, 0.000054, 0.208513⟩
    fov := 30 }

/-- `POSES.END` of scrollTimeline.js, lines 19-25. -/
def POSES_END : Pose :=
  { rigPos := ⟨0, 0, 0⟩
    rigRot := ⟨0, 0.0767, 0⟩
    camLocalPos := ⟨-0.451684, 0.210539, 5.422854⟩
    target := ⟨0.048933, 0.014605, 0.111806⟩
    fov := 30 }

/-- The mutable objects the viewer code touches, gathered in one record:
the camera rig transform, the camera's local position and FOV, the target
proxy of part_000 line 35, and the orbit-controls state. `projUpdates`,
`controlsUpdates` and `targetApplies` count calls to
`camera.updateProjectionMatrix()`, `controls.update()` and the
`applyTarget` callback, so that invocation of those methods is observable
in the model. -/
structure ViewerState where
  rigPos : Vec3
  rigRot : Vec3
  camPos : Vec3
  fov : ℚ
  projUpdates : ℕ
  targetProxy : Vec3
  controlsEnabled : Bool
  controlsTarget : Vec3
  controlsUpdates : ℕ
  lookAtPoint : Option Vec3
  targetApplies : ℕ
  deriving DecidableEq

/-- The viewer state right after `initViewer` (src/unnamed/part_002) and the
target-proxy creation (src/unnamed/part_000 line 35): camera at local
position (0, 2, 8) with FOV 30, orbit controls disabled with target
(0, 0, 0), rig at the origin. -/
def initState : ViewerState :=
  { rigPos := ⟨0, 0, 0⟩
    rigRot := ⟨0, 0, 0⟩
    camPos := ⟨0, 2, 8⟩
    fov := 30
    projUpdates := 0
    targetProxy := ⟨0, 0, 0⟩
    controlsEnabled := false
    controlsTarget := ⟨0, 0, 0⟩
    controlsUpdates := 0
    lookAtPoint := none
    targetApplies := 0 }

/-- `applyTarget` of src/unnamed/part_000, lines 36-43: if
`controls.enabled` then write the target into `controls.target` and call
`controls.update()`; otherwise call `camera.lookAt(target)`. The enabled
flag is read from the current state on every call. -/
def applyTarget (t : Vec3) (s : ViewerState) : ViewerState :=
  if s.controlsEnabled then
    { s with
      controlsTarget := t
      controlsUpdates := s.controlsUpdates + 1
      targetApplies := s.targetApplies + 1 }
  else
    { s with
      lookAtPoint := some t
      targetApplies := s.targetApplies + 1 }

/-- `applyPose` of scrollTimeline.js, lines 50-73: a missing pose returns
immediately; otherwise rig position and rotation are set, the camera local
position is set when present, the FOV is set (with a projection-matrix
update) when defined, the target is copied onto the target proxy and the
`applyTarget` callback is invoked (it is always supplied in part_000). -/
def applyPose (s : ViewerState) (pose : Option JsPose) : ViewerState :=
  match pose with
  | none => s
  | some p =>
    let s1 := { s with rigPos := p.rigPos, rigRot := p.rigRot }
    let s2 :=
      match p.camLocalPos with
      | some c => { s1 with camPos := c }
      | none => s1
    let s3 :=
      match p.fov with
      | some f => { s2 with fov := f, projUpdates := s2.projUpdates + 1 }
      | none => s2
    let s4 := { s3 with targetProxy := p.target }
    applyTarget s4.targetProxy s4

/-- Modelled from the spec: the animation library's tween with `ease: 'none'`
is linear interpolation, `start + (end - start) * t` (spec §4.1 and the
Glossary's "Lerp"); the tween engine itself (gsap) is not among this
repository's source files. -/
def lerp (a b t : ℚ) : ℚ := a + (b - a) * t

/-- Componentwise linear interpolation of a 3D vector. -/
def lerpVec3 (u v : Vec3) (t : ℚ) : Vec3 :=
  ⟨lerp u.x v.x t, lerp u.y v.y t, lerp u.z v.z t⟩

/-- The spec's Pose Interpolator (§4.1): every scalar field of the camera
state is interpolated independently, with no easing. This is the composite
behavior the repository configures in `setupScrollTimeline` through one
ease-'none' tween per animated object. -/
def interpolatePose (s e : Pose) (t : ℚ) : Pose :=
  { rigPos := lerpVec3 s.rigPos e.rigPos t
    rigRot := lerpVec3 s.rigRot e.rigRot t
    camLocalPos := lerpVec3 s.camLocalPos e.camLocalPos t
    target := lerpVec3 s.target e.target t
    fov := lerp s.fov e.fov t }

/-- The camera state the scroll timeline of `setupScrollTimeline`
(scrollTimeline.js, lines 120-149) produces at progress `p`, starting from
the viewer state `s0` current when the timeline begins: each `tl.to` tween
runs with `ease: 'none'` (modelled by `lerp`) from the start value to the
corresponding `POSES.END` field, all placed at timeline position 0; the
camera local position is tweened only when the END pose has one (the
`if (POSES.END.camLocalPos)` guard); the FOV is not animated; the target
tween's `onUpdate` invokes the `applyTarget` callback on the proxy. -/
def timelineStateAt (endPose : JsPose) (s0 : ViewerState) (p : ℚ) : ViewerState :=
  let s1 := { s0 with
    rigPos := lerpVec3 s0.rigPos endPose.rigPos p
    rigRot := lerpVec3 s0.rigRot endPose.rigRot p }
  let s2 :=
    match endPose.camLocalPos with
    | some c => { s1 with camPos := lerpVec3 s1.camPos c p }
    | none => s1
  let s3 := { s2 with targetProxy := lerpVec3 s2.targetProxy endPose.target p }
  applyTarget s3.targetProxy s3

/-- `setupScrollTimeline` of scrollTimeline.js, lines 94-153: when the
pinned section is not found it logs an error and returns null (`none`);
otherwise it builds the scroll-driven timeline with no validation of the
poses. The returned function maps the state at timeline creation and a
progress value to the resulting viewer state. -/
def setupScrollTimeline (sectionFound : Bool) (endPose : JsPose) :
    Option (ViewerState → ℚ → ViewerState) :=
  if sectionFound then some (timelineStateAt endPose) else none

/-- Modelled from the spec: the scroll progress source (§4.3) and the
`OutOfRangeWarning` handling (§7) clamp a progress value to [0,1]; the
actual computation lives in the external ScrollTrigger library, not in this
repository's source files. -/
def clamp01 (p : ℚ) : ℚ := max 0 (min 1 p)

/-- Modelled from the spec: the `OutOfRangeWarning` predicate of §7 — a
progress value outside [0,1] is logged as a warning, not fatal. -/
def outOfRange (p : ℚ) : Bool := p < 0 || 1 < p

/-- The interpolator guarded by internal clamping, as §4.1 prescribes
("implementations should clamp internally for safety"). -/
def interpolateClamped (s e : Pose) (p : ℚ) : Pose :=
  interpolatePose s e (clamp01 p)

/-- The observable camera transform: rig transform, camera local position,
FOV, target proxy, controls target and look-at point — everything a render
frame sees, without the call counters. -/
structure Observable where
  rigPos : Vec3
  rigRot : Vec3
  camPos : Vec3
  fov : ℚ
  targetProxy : Vec3
  controlsTarget : Vec3
  lookAtPoint : Option Vec3
  deriving DecidableEq

/-- Project a viewer state onto its observable camera transform. -/
def ViewerState.observable (s : ViewerState) : Observable :=
  { rigPos := s.rigPos
    rigRot := s.rigRot
    camPos := s.camPos
    fov := s.fov
    targetProxy := s.targetProxy
    controlsTarget := s.controlsTarget
    lookAtPoint := s.lookAtPoint }

/-- `x` lies between `a` and `b` inclusive, whichever order they are in. -/
abbrev between (a b x : ℚ) : Prop := min a b ≤ x ∧ x ≤ max a b

/-- Every coordinate of `w` lies between the coordinates of `u` and `v`. -/
abbrev vecBetween (u v w : Vec3) : Prop :=
  between u.x v.x w.x ∧ between u.y v.y w.y ∧ between u.z v.z w.z

/-- Every scalar field of pose `q` lies between the corresponding fields of
poses `s` and `e`, inclusive. -/
abbrev poseBetween (s e q : Pose) : Prop :=
  vecBetween s.rigPos e.rigPos q.rigPos ∧
  vecBetween s.rigRot e.rigRot q.rigRot ∧
  vecBetween s.camLocalPos e.camLocalPos q.camLocalPos ∧
  vecBetween s.target e.target q.target ∧
  between s.fov e.fov q.fov

/-- Every scalar field of the viewer state `st` agrees with the linear
interpolation of the configured START and END poses at progress `p`. -/
def lerpAgrees (st : ViewerState) (p : ℚ) : Prop :=
  st.rigPos = lerpVec3 POSES_START.rigPos POSES_END.rigPos p ∧
  st.rigRot = lerpVec3 POSES_START.rigRot POSES_END.rigRot p ∧
  st.camPos = lerpVec3 POSES_START.camLocalPos POSES_END.camLocalPos p ∧
  st.targetProxy = lerpVec3 POSES_START.target POSES_END.target p ∧
  st.fov = lerp POSES_START.fov POSES_END.fov p

/-! Helper lemmas shared between the claims. -/

theorem lerp_between (a b p : ℚ) (h0 : 0 ≤ p) (h1 : p ≤ 1) :
    between a b (lerp a b p) := by
  rcases le_total a b with h | h
  · rw [between, min_eq_left h, max_eq_right h, lerp]
    constructor <;> nlinarith
  · rw [between, min_eq_right h, max_eq_left h, lerp]
    constructor <;> nlinarith

theorem lerpVec3_between (u v : Vec3) (p : ℚ) (h0 : 0 ≤ p) (h1 : p ≤ 1) :
    vecBetween u v (lerpVec3 u v p) :=
  ⟨lerp_between _ _ _ h0 h1, lerp_between _ _ _ h0 h1, lerp_between _ _ _ h0 h1⟩

theorem interpolate_between (s e : Pose) (p : ℚ) (h0 : 0 ≤ p) (h1 : p ≤ 1) :
    poseBetween s e (interpolatePose s e p) :=
  ⟨lerpVec3_between _ _ _ h0 h1, lerpVec3_between _ _ _ h0 h1,
   lerpVec3_between _ _ _ h0 h1, lerpVec3_between _ _ _ h0 h1,
   lerp_between _ _ _ h0 h1⟩

/-! The claims. -/

/-- C1: for every progress value p in [0,1], the camera state the scroll
timeline produces (starting from the state in which the START pose has been
applied, as part_000 does before `setupScrollTimeline`) agrees in every
scalar field — rig position, rig rotation, camera local position, target,
FOV — with the linear interpolation `start + (end - start) * p` between the
configured START and END poses, with no easing. The FOV is not tweened by
the timeline, but both poses set it to 30, so it agrees with its linear
interpolation as well. -/
theorem timeline_matches_lerp (sInit : ViewerState) (p : ℚ)
    (_h0 : 0 ≤ p) (_h1 : p ≤ 1) :
    lerpAgrees
      (timelineStateAt POSES_END.toJs (applyPose sInit (some POSES_START.toJs)) p)
      p := by
  by_cases hc : sInit.controlsEnabled <;>
    simp [lerpAgrees, timelineStateAt, applyPose, applyTarget, Pose.toJs,
      POSES_START, POSES_END, lerpVec3, lerp, hc]

/-- Witness for C1 at progress 1/2 from the initial viewer state. -/
theorem timeline_matches_lerp_witness :
    lerpAgrees
      (timelineStateAt POSES_END.toJs
        (applyPose initState (some POSES_START.toJs)) (1/2))
      (1/2) :=
  timeline_matches_lerp initState (1/2) (by norm_num) (by norm_num)

/-- C2: interpolating the configured START and END poses at progress 0
reproduces every field of START exactly, and at progress 1 every field of
END exactly. -/
theorem interpolate_endpoints :
    interpolatePose POSES_START POSES_END 0 = POSES_START ∧
    interpolatePose POSES_START POSES_END 1 = POSES_END := by
  constructor <;>
    simp only [interpolatePose, lerpVec3, lerp, POSES_START, POSES_END,
      Pose.mk.injEq, Vec3.mk.injEq] <;>
    norm_num

/-- C3 is false on the code: `applyPose` called with a missing pose returns
the state unchanged — a silent skip with no error signal of any kind (the
function's codomain has no error channel), contradicting the claim that a
ConfigurationError is raised rather than the pose being silently skipped. -/
theorem missing_pose_silently_skipped :
    applyPose initState none = initState := rfl

/-- C3 amended: the mapper performs no pose validation and raises no
error: `applyPose` with a missing pose returns immediately with the state
unchanged (a silent no-op), and `setupScrollTimeline` constructs the
timeline without checking the poses, returning null only when the pinned
section is not found. -/
theorem no_pose_validation (s : ViewerState) (endPose : JsPose) :
    applyPose s none = s ∧
    setupScrollTimeline true endPose = some (timelineStateAt endPose) ∧
    setupScrollTimeline false endPose = none :=
  ⟨rfl, rfl, rfl⟩

/-- C4 is false on the code: the configured START target is
(-0.196162, 0.000054, 0.208513) and the END target is
(0.048933, 0.014605, 0.111806), so interpolation at progress 0.5 does not
yield the claimed target (-0.0735, 0.00755, 0.1605). -/
theorem midpoint_target_mismatch :
    (interpolatePose POSES_START POSES_END (1/2)).target ≠
      ⟨-0.0735, 0.00755, 0.1605⟩ := by
  simp only [interpolatePose, lerpVec3, lerp, POSES_START, POSES_END,
    ne_eq, Vec3.mk.injEq, not_and]
  norm_num

/-- C4 amended: with the configured START pose (target
(-0.196162, 0.000054, 0.208513), fov 30) and END pose (target
(0.048933, 0.014605, 0.111806), fov 30), interpolation at progress 0.5
yields target (-0.0736145, 0.0073295, 0.1601595) and fov 30. -/
theorem midpoint_values :
    (interpolatePose POSES_START POSES_END (1/2)).target =
      ⟨-0.0736145, 0.0073295, 0.1601595⟩ ∧
    (interpolatePose POSES_START POSES_END (1/2)).fov = 30 := by
  constructor <;>
    simp only [interpolatePose, lerpVec3, lerp, POSES_START, POSES_END,
      Vec3.mk.injEq] <;>
    norm_num

/-- C5: `applyTarget` reads the controls-enabled flag from the current
state on every call; when it is set, the target is written into the
controls' target and a controls update is triggered while the camera's
look-at point is untouched, and when it is clear, the camera's direct
look-at is invoked while the controls' target and update count are
untouched — exactly one of the two paths runs on any single apply. -/
theorem applyTarget_mode_dispatch (s : ViewerState) (t : Vec3) :
    (s.controlsEnabled = true →
      (applyTarget t s).controlsTarget = t ∧
      (applyTarget t s).controlsUpdates = s.controlsUpdates + 1 ∧
      (applyTarget t s).lookAtPoint = s.lookAtPoint) ∧
    (s.controlsEnabled = false →
      (applyTarget t s).lookAtPoint = some t ∧
      (applyTarget t s).controlsTarget = s.controlsTarget ∧
      (applyTarget t s).controlsUpdates = s.controlsUpdates) := by
  constructor <;> intro h <;> simp [applyTarget, h]

/-- C6: for progress values p1 < p2 in [0,1], every interpolated scalar
field at p1 and at p2 lies between the corresponding START and END field
values inclusive — linear interpolation never overshoots either
endpoint. -/
theorem no_overshoot (s e : Pose) (p1 p2 : ℚ)
    (h0 : 0 ≤ p1) (h12 : p1 < p2) (h1 : p2 ≤ 1) :
    poseBetween s e (interpolatePose s e p1) ∧
    poseBetween s e (interpolatePose s e p2) :=
  ⟨interpolate_between s e p1 h0 (le_of_lt (lt_of_lt_of_le h12 h1)),
   interpolate_between s e p2 (le_trans h0 (le_of_lt h12)) h1⟩

/-- Witness for C6 at the configured poses with p1 = 1/4 and p2 = 1/2. -/
theorem no_overshoot_witness :
    poseBetween POSES_START POSES_END
      (interpolatePose POSES_START POSES_END (1/4)) ∧
    poseBetween POSES_START POSES_END
      (interpolatePose POSES_START POSES_END (1/2)) :=
  no_overshoot POSES_START POSES_END (1/4) (1/2)
    (by norm_num) (by norm_num) (by norm_num)

/-- C7: applying the same fully specified pose twice in succession leaves
the observable camera transform — rig position and rotation, camera local
position, FOV, target proxy, controls target and look-at point — identical
to applying it once. -/
theorem applyPose_idempotent (s : ViewerState) (p : JsPose) :
    (applyPose (applyPose s (some p)) (some p)).observable =
      (applyPose s (some p)).observable := by
  rcases p with ⟨rp, rr, cl, tg, fv⟩
  by_cases hc : s.controlsEnabled <;>
    rcases cl with _ | c <;> rcases fv with _ | f <;>
      simp [applyPose, applyTarget, ViewerState.observable, hc]

/-- C8: a progress value outside [0,1] is clamped to the nearest in-range
value and the computation proceeds — the result equals the interpolation at
0 for negative inputs and at 1 for inputs above one — and the out-of-range
condition is flagged as a warning. -/
theorem clamp_out_of_range (s e : Pose) (p : ℚ) :
    (p < 0 →
      interpolateClamped s e p = interpolatePose s e 0 ∧ outOfRange p = true) ∧
    (1 < p →
      interpolateClamped s e p = interpolatePose s e 1 ∧ outOfRange p = true) := by
  constructor <;> intro h
  · have hcl : clamp01 p = 0 := by
      rw [clamp01, min_eq_right (le_of_lt (lt_trans h zero_lt_one)),
        max_eq_left (le_of_lt h)]
    exact ⟨by rw [interpolateClamped, hcl], by simp [outOfRange, h]⟩
  · have hcl : clamp01 p = 1 := by
      rw [clamp01, min_eq_left (le_of_lt h), max_eq_right zero_le_one]
    exact ⟨by rw [interpolateClamped, hcl], by simp [outOfRange, h]⟩

/-- C9: `applyPose` called with a missing pose returns the state unchanged
in every component — rig transform, camera position, FOV, projection-update
count, target proxy, controls state and the `applyTarget` invocation count,
so `applyTarget` is never invoked. -/
theorem applyPose_none_noop (s : ViewerState) : applyPose s none = s := rfl

/-- C10: `applyPose` tolerates partially specified poses: rig position, rig
rotation and the target are always applied; an absent camera local position
leaves the camera position unchanged; an undefined FOV leaves the FOV and
the projection matrix unchanged; a present FOV triggers exactly one
projection-matrix update. -/
theorem applyPose_partial_fields (s : ViewerState) (p : JsPose) :
    (applyPose s (some p)).rigPos = p.rigPos ∧
    (applyPose s (some p)).rigRot = p.rigRot ∧
    (applyPose s (some p)).targetProxy = p.target ∧
    (p.camLocalPos = none → (applyPose s (some p)).camPos = s.camPos) ∧
    (∀ c : Vec3, p.camLocalPos = some c → (applyPose s (some p)).camPos = c) ∧
    (p.fov = none →
      (applyPose s (some p)).fov = s.fov ∧
      (applyPose s (some p)).projUpdates = s.projUpdates) ∧
    (p.fov ≠ none → (applyPose s (some p)).projUpdates = s.projUpdates + 1) := by
  rcases p with ⟨rp, rr, cl, tg, fv⟩
  by_cases hc : s.controlsEnabled <;>
    rcases cl with _ | c <;> rcases fv with _ | f <;>
      simp [applyPose, applyTarget, hc]

end ScrollViewer
